import Mathlib

/-!
Shallow embedding of `src/main.py`: a minimal employee-directory web
application backed by an SQLite table `workers`, with an HTTP request
handler (`do_GET` / `do_POST`) dispatching on the URL path.

The SQLite table is modelled as a list of rows kept in rowid order
together with the AUTOINCREMENT counter (`nextId`). SQL parameter
binding of a Python value into `WHERE id = ?` is modelled by `SqlVal`
and `idMatches`, including SQLite's comparison affinity: a TEXT operand
compared against the INTEGER `id` column is converted to a number when
the conversion is lossless and reversible, otherwise it stays TEXT and
the comparison is false for every integer id.
-/

/-- One row of the `workers` table; also the dict the Python code builds
from a row (keys `id`, `name`, `position`, `department`). -/
structure Worker where
  id : Int
  name : String
  position : String
  department : String
  deriving DecidableEq

/-- State of the SQLite database file `workers.db`: the rows of the
`workers` table in rowid (= id) order, plus the AUTOINCREMENT counter:
the id the next `INSERT` will assign. AUTOINCREMENT ids start at 1,
grow monotonically and are never reused after a `DELETE`. -/
structure DB where
  rows : List Worker
  nextId : Int
  deriving DecidableEq

/-- The database right after `init_db` (src/main.py 17-33) on a fresh
`workers.db`: an empty `workers` table, first id to be assigned is 1. -/
def initialDB : DB := { rows := [], nextId := 1 }

/-- A Python value bound into an SQL parameter slot: the handlers bind a
`str` taken verbatim from a URL path segment; integer ids are what the
store schema declares. -/
inductive SqlVal where
  | int (n : Int)
  | text (s : String)
  deriving DecidableEq

/-- Is `c` one of the ASCII digits 0-9. -/
def isDigitChar (c : Char) : Bool :=
  48 ≤ c.toNat && c.toNat ≤ 57

/-- Numeric value of a digit string, most significant digit first. -/
def digitsVal (l : List Char) : Nat :=
  l.foldl (fun acc c => acc * 10 + (c.toNat - 48)) 0

/-- Is `c` one of the characters C `isspace` accepts, which is what
SQLite's text-to-number conversion skips at both ends. -/
def isSpaceChar (c : Char) : Bool :=
  c = ' ' || c = '\t' || c = '\n' || c = '\x0b' || c = '\x0c' || c = '\r'

/-- Exponent tail of an SQLite numeric literal, after the `e`/`E`:
optional sign then at least one digit; returns the exponent value and
the unconsumed rest, or `none` when malformed (as in `"1e"`, `"1e+"`). -/
def parseExpTail (cs : List Char) : Option (Int × List Char) :=
  let sgn : Bool × List Char :=
    match cs with
    | '+' :: r => (false, r)
    | '-' :: r => (true, r)
    | _ => (false, cs)
  let ds := sgn.2.takeWhile isDigitChar
  if ds.isEmpty then none
  else
    some ((if sgn.1 then -(digitsVal ds : Int) else (digitsVal ds : Int)),
      sgn.2.dropWhile isDigitChar)

/-- Parse a complete SQLite numeric literal (the grammar of
`sqlite3AtoF`, which numeric affinity applies to a TEXT operand):
optional whitespace, optional sign, digits with an optional decimal
point and an optional signed exponent, optional whitespace, nothing
else. Returns the sign, the significand digits as a number, and the
decimal scale `k`, so that the literal's exact value is
`± m * 10 ^ k`; `none` when the text is not wholly numeric. -/
def parseNumLit (cs0 : List Char) : Option (Bool × Nat × Int) :=
  let cs1 := cs0.dropWhile isSpaceChar
  let sgn : Bool × List Char :=
    match cs1 with
    | '+' :: r => (false, r)
    | '-' :: r => (true, r)
    | _ => (false, cs1)
  let ip := sgn.2.takeWhile isDigitChar
  let rest1 := sgn.2.dropWhile isDigitChar
  let frac : List Char × List Char :=
    match rest1 with
    | '.' :: r => (r.takeWhile isDigitChar, r.dropWhile isDigitChar)
    | _ => ([], rest1)
  if ip.isEmpty && frac.1.isEmpty then none
  else
    let expPart : Option (Int × List Char) :=
      match frac.2 with
      | 'e' :: r => parseExpTail r
      | 'E' :: r => parseExpTail r
      | r => some (0, r)
    match expPart with
    | none => none
    | some (e, rest2) =>
      if (rest2.dropWhile isSpaceChar).isEmpty then
        some (sgn.1, digitsVal (ip ++ frac.1), e - frac.1.length)
      else none

/-- SQLite comparison affinity for a TEXT operand compared against the
INTEGER `id` column: a text that is a well-formed numeric literal
(`"42"`, `"01"`, `"+1"`, `" 1 "`, `"1e2"`, `"2.0"`, `"1."`) is
converted to a number and compared numerically, so it equals the
integer id given by its exact value when that value is integral
(`"100e-2"` matches id 1, `"1.5"` matches nothing); any other text
stays TEXT and is unequal to every integer id. Modelling note: SQLite
converts a literal with a decimal point or exponent to an IEEE double;
the value here is computed with exact decimal arithmetic instead,
which agrees with SQLite for every literal whose significand and value
fit a double — in particular for every id this program can assign —
and idealizes only literals needing more than double precision. -/
def sqliteCoerceId (s : String) : Option Int :=
  match parseNumLit s.data with
  | none => none
  | some (neg, m, k) =>
    if 0 ≤ k then
      let v : Int := (m : Int) * 10 ^ k.toNat
      some (if neg then -v else v)
    else
      let p : Nat := 10 ^ (-k).toNat
      if m % p = 0 then
        some (if neg then -((m / p : Nat) : Int) else ((m / p : Nat) : Int))
      else none

/-- Does the bound parameter value `v` match the INTEGER column value `i`
under SQLite comparison semantics (`WHERE id = ?`). -/
def idMatches (v : SqlVal) (i : Int) : Bool :=
  match v with
  | .int n => i == n
  | .text s =>
    match sqliteCoerceId s with
    | some n => i == n
    | none => false

/-- `get_all_workers` (src/main.py 36-49): `SELECT id, name, position,
department FROM workers` with no ORDER BY; on a rowid table the scan
returns rows in rowid order, the model's list order. Each row tuple is
converted to a dict, modelled by rebuilding the `Worker` structure. -/
def get_all_workers (db : DB) : List Worker :=
  db.rows.map (fun r =>
    { id := r.id, name := r.name, position := r.position, department := r.department })

/-- `get_worker_by_id` (src/main.py 52-65): `SELECT ... WHERE id = ?`
with `fetchone`, i.e. the first matching row, converted to a dict;
`None` when no row matches. -/
def get_worker_by_id (v : SqlVal) (db : DB) : Option Worker :=
  (db.rows.find? (fun r => idMatches v r.id)).map (fun r =>
    { id := r.id, name := r.name, position := r.position, department := r.department })

/-- `add_worker` (src/main.py 68-78): `INSERT INTO workers (name,
position, department) VALUES (?, ?, ?)`; the fresh AUTOINCREMENT id is
`db.nextId`. The Python function has no `return` statement, so it
returns `None`; that return value is modelled as the first component
(always `none` — the function never surfaces the assigned id). -/
def add_worker (name position department : String) (db : DB) : Option Int × DB :=
  (none,
   { rows := db.rows ++ [{ id := db.nextId, name := name, position := position,
                           department := department }],
     nextId := db.nextId + 1 })

/-- `update_worker` (src/main.py 81-91): `UPDATE workers SET name=?,
position=?, department=? WHERE id=?` — overwrites the three text fields
of every matching row, leaves ids and row order unchanged. -/
def update_worker (v : SqlVal) (name position department : String) (db : DB) : DB :=
  { db with
    rows := db.rows.map (fun r =>
      if idMatches v r.id then
        { id := r.id, name := name, position := position, department := department }
      else r) }

/-- `delete_worker` (src/main.py 94-101): `DELETE FROM workers WHERE
id=?` — removes every matching row; the AUTOINCREMENT counter is kept. -/
def delete_worker (v : SqlVal) (db : DB) : DB :=
  { db with rows := db.rows.filter (fun r => !(idMatches v r.id)) }

/-- Well-formedness of a reachable database state: rows are strictly
ordered by id (so ids are unique, and a rowid scan is id-ascending) and
every present id is below the AUTOINCREMENT counter. `initialDB`
satisfies it and every store operation preserves it (lemmas below). -/
def DB.WF (db : DB) : Prop :=
  db.rows.Pairwise (fun a b => a.id < b.id) ∧ ∀ w ∈ db.rows, w.id < db.nextId

instance (db : DB) : Decidable db.WF := by
  unfold DB.WF
  infer_instance

/-- Python `split("/")` on the list of characters: maximal runs between
separator occurrences, keeping empty fields; `"".split("/") = [""]`. -/
def splitSlash : List Char → List (List Char)
  | [] => [[]]
  | c :: rest =>
    if c = '/' then [] :: splitSlash rest
    else
      match splitSlash rest with
      | [] => [[c]]
      | g :: gs => (c :: g) :: gs

/-- Python `strip("/")`: remove every leading and trailing `/`. -/
def stripSlash (l : List Char) : List Char :=
  ((l.dropWhile (fun c => c = '/')).reverse.dropWhile (fun c => c = '/')).reverse

/-- `self.path.strip("/").split("/")` (src/main.py 119, 202). -/
def pathParts (p : String) : List String :=
  (splitSlash (stripSlash p.data)).map (fun cs => String.mk cs)

/-- `dict(urllib.parse.parse_qsl(post_data)).get(key, "")` (src/main.py
206, 210-212): the parsed form body is a list of key/value pairs, the
dict keeps the last value for a duplicated key, and a missing key
defaults to the empty string. -/
def dictGet (d : List (String × String)) (k : String) : String :=
  match d.reverse.find? (fun kv => kv.1 == k) with
  | some kv => kv.2
  | none => ""

/-- One HTTP response as the handler writes it: `send_response(status)`
or `send_error(status, message)` followed by one body. -/
structure Response where
  status : Nat
  body : String
  deriving DecidableEq

/-- HTTP request method: the handler class defines `do_GET` and
`do_POST`; any other method has no `do_<METHOD>` attribute. -/
inductive Method where
  | GET
  | POST
  | other (name : String)
  deriving DecidableEq

/-- An inbound HTTP request: method, URL path, and the form-decoded POST
body (empty for GET). -/
structure Request where
  method : Method
  path : String
  body : List (String × String)

/-- Modelled from the spec: the repository's `templates/index.html` is
not under `src/`; the rendering collaborator returns a complete HTML
document from the passed title. -/
def renderIndex (title : String) : String :=
  "<html><body><h1>" ++ title ++ "</h1></body></html>"

/-- Modelled from the spec: the repository's `templates/workers_list.html`
is not under `src/`; the rendered list shows each worker's fields. -/
def renderWorkersList (workers : List Worker) (title : String) : String :=
  "<html><body><h1>" ++ title ++ "</h1><ul>" ++
  String.join (workers.map (fun w =>
    "<li>" ++ toString w.id ++ " " ++ w.name ++ " " ++ w.position ++ " " ++
    w.department ++ "</li>")) ++
  "</ul></body></html>"

/-- Fixed HTML segment of the worker form before the title. -/
def formPre : String := "<html><body><h1>"

/-- Fixed HTML segment of the worker form between title and action. -/
def formA1 : String := "</h1><form method=\"post\" action=\""

/-- Fixed HTML segment of the worker form before the name value. -/
def formA2 : String := "\"><input name=\"name\" value=\""

/-- Fixed HTML segment of the worker form before the position value. -/
def formA3 : String := "\"><input name=\"position\" value=\""

/-- Fixed HTML segment of the worker form before the department value. -/
def formA4 : String := "\"><input name=\"department\" value=\""

/-- Fixed HTML segment of the worker form before the submit label. -/
def formA5 : String := "\"><button>"

/-- Fixed HTML segment closing the worker form. -/
def formA6 : String := "</button></form></body></html>"

/-- Modelled from the spec: the repository's `templates/worker_form.html`
is not under `src/`; per the spec the form is rendered pre-filled with
the worker's current `name`, `position` and `department` values (empty
for the add form, where `worker` is `None`). -/
def renderWorkerForm (title action : String) (worker : Option Worker)
    (submitText : String) : String :=
  formPre ++ title ++ formA1 ++ action ++
  formA2 ++ (worker.map Worker.name).getD "" ++
  formA3 ++ (worker.map Worker.position).getD "" ++
  formA4 ++ (worker.map Worker.department).getD "" ++
  formA5 ++ submitText ++ formA6

/-- Modelled from the spec: the repository's `templates/message.html` is
not under `src/`; it renders a title and a confirmation message. -/
def renderMessage (title message : String) : String :=
  "<html><body><h1>" ++ title ++ "</h1><p>" ++ message ++ "</p></body></html>"

/-- `MyRequestHandler.do_GET` (src/main.py 109-193). Result: the list of
HTTP responses written (each branch writes exactly one), the database
state afterwards, and the number of Worker-Store operations performed
(`get_all_workers`, `get_worker_by_id`, `add_worker`, `update_worker`,
`delete_worker` each count as one). -/
def do_GET (path : String) (db : DB) : List Response × DB × Nat :=
  if path = "/" then
    ([{ status := 200, body := renderIndex "Добро пожаловать в Кантерлот!" }], db, 0)
  else if path = "/workers" then
    ([{ status := 200,
        body := renderWorkersList (get_all_workers db) "Список работников" }], db, 1)
  else
    match pathParts path with
    | ["workers", "add"] =>
      ([{ status := 200,
          body := renderWorkerForm "Добавление работника" "/workers/add" none
            "Добавить" }], db, 0)
    | ["workers", "edit", wid] =>
      match get_worker_by_id (.text wid) db with
      | some w =>
        ([{ status := 200,
            body := renderWorkerForm ("Редактирование работника #" ++ wid)
              ("/workers/edit/" ++ wid) (some w) "Сохранить" }], db, 1)
      | none => ([{ status := 404, body := "Worker not found" }], db, 1)
    | ["workers", "delete", wid] =>
      match get_worker_by_id (.text wid) db with
      | some _ =>
        ([{ status := 200,
            body := renderMessage "Работник удалён"
              ("Работник c ID=" ++ wid ++ " удалён.") }],
         delete_worker (.text wid) db, 2)
      | none => ([{ status := 404, body := "Worker not found" }], db, 1)
    | _ => ([{ status := 404, body := "Страница не найдена" }], db, 0)

/-- `MyRequestHandler.do_POST` (src/main.py 195-248). Same result shape
as `do_GET`; `body` is the form-decoded request body. -/
def do_POST (path : String) (body : List (String × String)) (db : DB) :
    List Response × DB × Nat :=
  if path = "/workers/add" then
    let name := dictGet body "name"
    let position := dictGet body "position"
    let department := dictGet body "department"
    let r := add_worker name position department db
    ([{ status := 200,
        body := renderMessage "Успех"
          ("Новый работник \x27" ++ name ++ "\x27 успешно добавлен!") }], r.2, 1)
  else
    match pathParts path with
    | ["workers", "edit", wid] =>
      match get_worker_by_id (.text wid) db with
      | some _ =>
        let name := dictGet body "name"
        let position := dictGet body "position"
        let department := dictGet body "department"
        ([{ status := 200,
            body := renderMessage "Успех"
              ("Данные работника с ID=" ++ wid ++ " обновлены.") }],
         update_worker (.text wid) name position department db, 2)
      | none => ([{ status := 404, body := "Worker not found" }], db, 1)
    | _ => ([{ status := 404, body := "Страница не найдена" }], db, 0)

/-- Dispatch of one request, as `BaseHTTPRequestHandler` does it: the
method name selects the `do_<METHOD>` attribute of `MyRequestHandler`
(src/main.py 104-248); a method with no such attribute is answered with
`send_error(501, "Unsupported method")` and no store call. -/
def handle (req : Request) (db : DB) : List Response × DB × Nat :=
  match req.method with
  | .GET => do_GET req.path db
  | .POST => do_POST req.path req.body db
  | .other _ => ([{ status := 501, body := "Unsupported method" }], db, 0)

/-- Structural match of the `do_GET` dispatch table rows
(src/main.py 121, 130, 140, 154, 173). -/
def matchesGET (path : String) : Bool :=
  path == "/" || path == "/workers" ||
  (match pathParts path with
   | ["workers", "add"] => true
   | ["workers", "edit", _] => true
   | ["workers", "delete", _] => true
   | _ => false)

/-- Structural match of the `do_POST` dispatch table rows
(src/main.py 208, 225). -/
def matchesPOST (path : String) : Bool :=
  path == "/workers/add" ||
  (match pathParts path with
   | ["workers", "edit", _] => true
   | _ => false)

/-- A sample worker record used in concrete witnesses. -/
def workerOne : Worker :=
  { id := 1, name := "Alice", position := "Engineer", department := "RnD" }

/-- A database holding exactly `workerOne`. -/
def dbOne : DB := { rows := [workerOne], nextId := 2 }

/-- A database holding two workers, ids 1 and 2. -/
def dbTwo : DB :=
  { rows := [workerOne,
             { id := 2, name := "Twilight", position := "Principal", department := "School" }],
    nextId := 3 }

theorem get_all_workers_eq (db : DB) : get_all_workers db = db.rows :=
  List.map_id' db.rows

theorem get_eq_find (v : SqlVal) (db : DB) :
    get_worker_by_id v db = db.rows.find? (fun r => idMatches v r.id) := by
  unfold get_worker_by_id
  cases db.rows.find? (fun r => idMatches v r.id) <;> rfl

theorem initialDB_wf : initialDB.WF :=
  ⟨List.Pairwise.nil, fun w hw => absurd hw (List.not_mem_nil w)⟩

theorem update_keeps_id (v : SqlVal) (n p d : String) (r : Worker) :
    (if idMatches v r.id then
       ({ id := r.id, name := n, position := p, department := d } : Worker)
     else r).id = r.id := by
  split <;> rfl

theorem wf_add_worker (db : DB) (h : db.WF) (n p d : String) :
    (add_worker n p d db).2.WF := by
  obtain ⟨hs, hb⟩ := h
  constructor
  · simp only [add_worker]
    rw [List.pairwise_append]
    refine ⟨hs, List.pairwise_singleton _ _, ?_⟩
    intro a ha b hb'
    simp only [List.mem_singleton] at hb'
    subst hb'
    exact hb a ha
  · intro w hw
    simp only [add_worker, List.mem_append, List.mem_singleton] at hw
    show w.id < db.nextId + 1
    rcases hw with hw | hw
    · have := hb w hw
      omega
    · subst hw
      show db.nextId < db.nextId + 1
      omega

theorem wf_update_worker (v : SqlVal) (n p d : String) (db : DB) (h : db.WF) :
    (update_worker v n p d db).WF := by
  obtain ⟨hs, hb⟩ := h
  constructor
  · simp only [update_worker]
    rw [List.pairwise_map]
    exact hs.imp (fun {a b} hab => by simp only [update_keeps_id]; exact hab)
  · intro w hw
    simp only [update_worker, List.mem_map] at hw
    obtain ⟨r, hr, hw⟩ := hw
    subst hw
    rw [update_keeps_id]
    exact hb r hr

theorem wf_delete_worker (v : SqlVal) (db : DB) (h : db.WF) :
    (delete_worker v db).WF := by
  obtain ⟨hs, hb⟩ := h
  constructor
  · exact hs.filter _
  · intro w hw
    simp only [delete_worker, List.mem_filter] at hw
    exact hb w hw.1

theorem get_add_aux (db : DB) (h : db.WF) (n p d : String) :
    get_worker_by_id (.int db.nextId) (add_worker n p d db).2 =
      some { id := db.nextId, name := n, position := p, department := d } := by
  rw [get_eq_find]
  simp only [add_worker]
  rw [List.find?_append]
  have h1 : db.rows.find? (fun r => idMatches (.int db.nextId) r.id) = none := by
    rw [List.find?_eq_none]
    intro x hx
    have := h.2 x hx
    simp only [idMatches, beq_iff_eq]
    omega
  rw [h1]
  simp [List.find?, idMatches]

theorem get_update_eq (v : SqlVal) (n p d : String) (db : DB) :
    get_worker_by_id v (update_worker v n p d db) =
      (get_worker_by_id v db).map
        (fun w => { id := w.id, name := n, position := p, department := d }) := by
  rw [get_eq_find, get_eq_find]
  simp only [update_worker]
  rw [List.find?_map]
  have hpred : ((fun r => idMatches v r.id) ∘ (fun r =>
      if idMatches v r.id then
        ({ id := r.id, name := n, position := p, department := d } : Worker)
      else r)) = (fun r => idMatches v r.id) := by
    funext r
    simp only [Function.comp]
    rw [update_keeps_id]
  rw [hpred]
  cases hf : db.rows.find? (fun r => idMatches v r.id) with
  | none => rfl
  | some w =>
    have hpw : idMatches v w.id = true := by simpa using List.find?_some hf
    simp [hpw]

theorem get_delete_eq (v : SqlVal) (db : DB) :
    get_worker_by_id v (delete_worker v db) = none := by
  rw [get_eq_find]
  simp only [delete_worker]
  rw [List.find?_eq_none]
  intro x hx
  rw [List.mem_filter] at hx
  simp only [Bool.not_eq_true'] at hx
  simp [hx.2]

theorem delete_worker_idem (v : SqlVal) (db : DB) :
    delete_worker v (delete_worker v db) = delete_worker v db := by
  simp only [delete_worker, List.filter_filter, Bool.and_self]

/-- C1 (counterexample): `add_worker` does not return the freshly
assigned id. On the initial database the inserted record gets id 1,
yet the function's return value is `None` (`none`), not that id. -/
theorem add_worker_returns_no_id :
    (add_worker "Alice" "Engineer" "RnD" initialDB).2.rows.map Worker.id = [1] ∧
    (add_worker "Alice" "Engineer" "RnD" initialDB).1 ≠ some 1 := by
  constructor
  · rfl
  · intro h
    cases h

/-- C1 (amended): for every well-formed text triple, `add_worker`
inserts a new record under the freshly assigned id `db.nextId`; the
function itself returns `None` rather than that id, but the assigned id
is usable for subsequent `getById`, `update` and `delete` calls on the
new record. -/
theorem add_worker_assigns_usable_id (db : DB) (h : db.WF) (n p d a b c : String) :
    (add_worker n p d db).1 = none ∧
    (add_worker n p d db).2.rows =
      db.rows ++ [{ id := db.nextId, name := n, position := p, department := d }] ∧
    get_worker_by_id (.int db.nextId) (add_worker n p d db).2 =
      some { id := db.nextId, name := n, position := p, department := d } ∧
    get_worker_by_id (.int db.nextId)
        (update_worker (.int db.nextId) a b c (add_worker n p d db).2) =
      some { id := db.nextId, name := a, position := b, department := c } ∧
    get_worker_by_id (.int db.nextId)
        (delete_worker (.int db.nextId) (add_worker n p d db).2) = none := by
  refine ⟨rfl, rfl, get_add_aux db h n p d, ?_, get_delete_eq _ _⟩
  rw [get_update_eq, get_add_aux db h n p d]
  rfl

/-- C1 (witness): the amended statement at the initial database with
concrete field values. -/
theorem add_worker_assigns_usable_id_witness :
    initialDB.WF ∧
    ((add_worker "Alice" "Engineer" "RnD" initialDB).1 = none ∧
     (add_worker "Alice" "Engineer" "RnD" initialDB).2.rows =
       initialDB.rows ++
         [{ id := 1, name := "Alice", position := "Engineer", department := "RnD" }] ∧
     get_worker_by_id (.int 1) (add_worker "Alice" "Engineer" "RnD" initialDB).2 =
       some { id := 1, name := "Alice", position := "Engineer", department := "RnD" } ∧
     get_worker_by_id (.int 1)
         (update_worker (.int 1) "Alice" "Lead" "RnD"
           (add_worker "Alice" "Engineer" "RnD" initialDB).2) =
       some { id := 1, name := "Alice", position := "Lead", department := "RnD" } ∧
     get_worker_by_id (.int 1)
         (delete_worker (.int 1) (add_worker "Alice" "Engineer" "RnD" initialDB).2) =
       none) :=
  ⟨initialDB_wf,
   add_worker_assigns_usable_id initialDB initialDB_wf
     "Alice" "Engineer" "RnD" "Alice" "Lead" "RnD"⟩

/-- C2 (confirmed): on any well-formed store state, `add` followed by
`getById` on the id assigned to the new record returns a Worker whose
name, position and department equal exactly the three inputs. -/
theorem add_then_get_roundtrip (db : DB) (h : db.WF) (n p d : String) :
    get_worker_by_id (.int db.nextId) (add_worker n p d db).2 =
      some { id := db.nextId, name := n, position := p, department := d } :=
  get_add_aux db h n p d

/-- C2 (witness): the round trip on the single-worker database. -/
theorem add_then_get_roundtrip_witness :
    dbOne.WF ∧
    get_worker_by_id (.int 2) (add_worker "Pinkie" "Baker" "Sugarcube" dbOne).2 =
      some { id := 2, name := "Pinkie", position := "Baker", department := "Sugarcube" } :=
  ⟨by decide, add_then_get_roundtrip dbOne (by decide) "Pinkie" "Baker" "Sugarcube"⟩

/-- C3 (confirmed): on any well-formed store state, `listAll` returns
every stored Worker exactly once, in ascending id order, and returns
the empty sequence when the store holds no Workers. -/
theorem get_all_workers_complete_sorted (db : DB) (h : db.WF) :
    (get_all_workers db).Pairwise (fun x y => x.id < y.id) ∧
    (∀ w, w ∈ get_all_workers db ↔ w ∈ db.rows) ∧
    (∀ w ∈ db.rows, (get_all_workers db).count w = 1) ∧
    (db.rows = [] → get_all_workers db = []) := by
  rw [get_all_workers_eq]
  have hnd : db.rows.Nodup :=
    h.1.imp (fun {x y} hlt he => by cases he; exact lt_irrefl _ hlt)
  exact ⟨h.1, fun w => Iff.rfl,
    fun w hw => List.count_eq_one_of_mem hnd hw,
    fun he => he⟩

/-- C3 (witness): completeness and order on the two-worker database. -/
theorem get_all_workers_complete_sorted_witness :
    dbTwo.WF ∧
    ((get_all_workers dbTwo).Pairwise (fun x y => x.id < y.id) ∧
     (∀ w, w ∈ get_all_workers dbTwo ↔ w ∈ dbTwo.rows) ∧
     (∀ w ∈ dbTwo.rows, (get_all_workers dbTwo).count w = 1) ∧
     (dbTwo.rows = [] → get_all_workers dbTwo = [])) :=
  ⟨by decide, get_all_workers_complete_sorted dbTwo (by decide)⟩

/-- C4 (confirmed): after `delete` succeeds on a store containing the
id, `getById` on that id returns absent, and a second `delete` of the
same id is a no-op leaving the store unchanged (and is not an error:
`delete_worker` is a total function). -/
theorem delete_finality (v : SqlVal) (db : DB) (w : Worker)
    (_h : get_worker_by_id v db = some w) :
    get_worker_by_id v (delete_worker v db) = none ∧
    delete_worker v (delete_worker v db) = delete_worker v db :=
  ⟨get_delete_eq v db, delete_worker_idem v db⟩

/-- C4 (witness): deleting worker 1 from the single-worker database. -/
theorem delete_finality_witness :
    get_worker_by_id (.int 1) dbOne = some workerOne ∧
    (get_worker_by_id (.int 1) (delete_worker (.int 1) dbOne) = none ∧
     delete_worker (.int 1) (delete_worker (.int 1) dbOne) =
       delete_worker (.int 1) dbOne) :=
  ⟨by decide, delete_finality (.int 1) dbOne workerOne (by decide)⟩

/-- C5 (confirmed): for an id present in the store, applying
`update_worker` twice with the same values leaves the store (hence the
record for that id) identical to its state after the first call. -/
theorem update_worker_idempotent (v : SqlVal) (a b c : String) (db : DB) (w : Worker)
    (_h : get_worker_by_id v db = some w) :
    update_worker v a b c (update_worker v a b c db) = update_worker v a b c db := by
  simp only [update_worker, List.map_map]
  congr 1
  apply List.map_congr_left
  intro r _
  cases hm : idMatches v r.id <;> simp [Function.comp, hm]

/-- C5 (witness): double update of worker 1 in the single-worker
database. -/
theorem update_worker_idempotent_witness :
    get_worker_by_id (.int 1) dbOne = some workerOne ∧
    update_worker (.int 1) "Alice" "Lead" "RnD"
        (update_worker (.int 1) "Alice" "Lead" "RnD" dbOne) =
      update_worker (.int 1) "Alice" "Lead" "RnD" dbOne :=
  ⟨by decide, update_worker_idempotent (.int 1) "Alice" "Lead" "RnD" dbOne workerOne (by decide)⟩

/-- C7 (counterexample): the `GET /workers/delete/{id}` handler performs
two Worker-Store operations on an existing worker — `get_worker_by_id`
followed by `delete_worker` — refuting "at most one Store operation". -/
theorem delete_route_two_store_ops :
    ¬ ((handle { method := .GET, path := "/workers/delete/1", body := [] }
        dbOne).2.2 ≤ 1) := by
  decide

/-- C7 (amended): every dispatched handler produces exactly one HTTP
response and performs at most two Worker-Store operations (an existence
check via `get_worker_by_id` followed by at most one further
operation). -/
theorem handler_one_response_le_two_ops (req : Request) (db : DB) :
    (handle req db).1.length = 1 ∧ (handle req db).2.2 ≤ 2 := by
  rcases req with ⟨m, path, body⟩
  cases m with
  | GET =>
    simp only [handle, do_GET]
    split
    · exact ⟨rfl, by simp⟩
    split
    · exact ⟨rfl, by simp⟩
    split
    all_goals try split
    all_goals exact ⟨rfl, by simp⟩
  | POST =>
    simp only [handle, do_POST]
    split
    · exact ⟨rfl, by simp⟩
    split
    all_goals try split
    all_goals exact ⟨rfl, by simp⟩
  | other s => exact ⟨rfl, by simp [handle]⟩

/-- C8 (counterexample): a request whose method is neither GET nor POST
is answered with status 501 (unsupported method), not 404. -/
theorem other_method_status_not_404 :
    (handle { method := .other "PUT", path := "/workers", body := [] }
        initialDB).1.map Response.status ≠ [404] := by
  decide

/-- C8 (amended): a GET or POST request whose path matches no dispatch
table row is answered 404; a request whose method is neither GET nor
POST is answered 501 (unsupported method), because the handler class
defines no `do_<METHOD>` attribute for it. -/
theorem unmatched_request_status (req : Request) (db : DB) :
    (req.method = .GET → matchesGET req.path = false →
      (handle req db).1.map Response.status = [404]) ∧
    (req.method = .POST → matchesPOST req.path = false →
      (handle req db).1.map Response.status = [404]) ∧
    (∀ s, req.method = .other s → (handle req db).1.map Response.status = [501]) := by
  rcases req with ⟨m, path, body⟩
  refine ⟨?_, ?_, ?_⟩
  · intro hm hf
    simp only at hm
    subst hm
    simp only [matchesGET, Bool.or_eq_false_iff, beq_eq_false_iff_ne] at hf
    obtain ⟨⟨h1, h2⟩, h3⟩ := hf
    simp only [handle, do_GET]
    rw [if_neg h1, if_neg h2]
    split
    · rename_i heq
      rw [heq] at h3
      simp at h3
    · rename_i wid heq
      rw [heq] at h3
      simp at h3
    · rename_i wid heq
      rw [heq] at h3
      simp at h3
    · rfl
  · intro hm hf
    simp only at hm
    subst hm
    simp only [matchesPOST, Bool.or_eq_false_iff, beq_eq_false_iff_ne] at hf
    obtain ⟨h1, h2⟩ := hf
    simp only [handle, do_POST]
    rw [if_neg h1]
    split
    · rename_i wid heq
      rw [heq] at h2
      simp at h2
    · rfl
  · intro s hm
    simp only at hm
    subst hm
    rfl

/-- C8 (witness): concrete unmatched requests — an unknown GET path and
an unknown POST path give 404, a PUT request gives 501. -/
theorem unmatched_request_status_witness :
    (handle { method := .GET, path := "/nope", body := [] } initialDB).1.map
      Response.status = [404] ∧
    (handle { method := .POST, path := "/nope", body := [] } initialDB).1.map
      Response.status = [404] ∧
    (handle { method := .other "PUT", path := "/nope", body := [] } initialDB).1.map
      Response.status = [501] :=
  ⟨(unmatched_request_status { method := .GET, path := "/nope", body := [] }
      initialDB).1 rfl (by decide),
   (unmatched_request_status { method := .POST, path := "/nope", body := [] }
      initialDB).2.1 rfl (by decide),
   (unmatched_request_status { method := .other "PUT", path := "/nope", body := [] }
      initialDB).2.2 "PUT" rfl⟩

/-- C10 (confirmed): `POST /workers/add` always inserts a new record and
answers 200, whatever form keys are present; a missing `name` (or
`position`, `department`) key defaults to the empty string, and no
presence validation happens before the store call. -/
theorem post_add_always_inserts (db : DB) (body : List (String × String)) :
    (do_POST "/workers/add" body db).1.map Response.status = [200] ∧
    (do_POST "/workers/add" body db).2.1.rows =
      db.rows ++ [{ id := db.nextId, name := dictGet body "name",
                    position := dictGet body "position",
                    department := dictGet body "department" }] ∧
    (do_POST "/workers/add" body db).2.1.nextId = db.nextId + 1 ∧
    ((∀ kv ∈ body, kv.1 ≠ "name") → dictGet body "name" = "") := by
  refine ⟨rfl, rfl, rfl, ?_⟩
  intro hnone
  have hfind : body.reverse.find? (fun kv => kv.1 == "name") = none := by
    rw [List.find?_eq_none]
    intro kv hkv
    rw [List.mem_reverse] at hkv
    simp only [beq_iff_eq]
    exact hnone kv hkv
  simp [dictGet, hfind]

/-- C10 (witness): a body with no `name` key still inserts (status 200)
with the name defaulted to the empty string. -/
theorem post_add_always_inserts_witness :
    (do_POST "/workers/add" [("position", "Baker")] initialDB).1.map
      Response.status = [200] ∧
    dictGet [("position", "Baker")] "name" = "" :=
  ⟨(post_add_always_inserts initialDB [("position", "Baker")]).1,
   (post_add_always_inserts initialDB [("position", "Baker")]).2.2.2 (by decide)⟩
